import Mathlib

/-!
Verification of the roving-tabindex controller of react-data-grid
(`useRovingTabIndex` in the source).  The hook is embedded shallowly:

* one render pass of the hook becomes a pure function from the input
  `isSelected` and the current state `isChildFocused` to an optional state
  update together with the returned record;
* a settled evaluation re-runs the pass after a render-phase state update
  (the update always writes `false`, so one re-render settles);
* the `onFocus` handler becomes a function over the list of descendant
  elements of the cell, where `querySelector` with the attribute selector
  for a zero tabindex is the first list element carrying that attribute;
* a run of the controller is a list of steps, each either an evaluation
  with a given `isSelected` or a dispatched focus event.
-/

namespace RovingTabIndex

/-- The record returned by one call of the hook: the container tab index,
the tab index handed to descendants, and whether the focus handler is
attached (`onFocus` is the handler when selected, `undefined` otherwise). -/
structure RovingResult where
  tabIndex : Int
  childTabIndex : Int
  hasOnFocus : Bool
deriving DecidableEq, Repr

/-- One render pass of the hook body.  Inputs: the `isSelected` argument and
the current `isChildFocused` state.  Returns the render-phase state update,
if any (the guarded `setIsChildFocused false` call), together with the
returned record.  Inside a pass the local `isChildFocused` keeps the value
it had when the pass started, even after the setter was called. -/
def useRovingTabIndex (isSelected isChildFocused : Bool) :
    Option Bool × RovingResult :=
  let stateUpdate := if isChildFocused && !isSelected then some false else none
  let isFocusable := isSelected && !isChildFocused
  (stateUpdate,
    { tabIndex := if isFocusable then 0 else -1
      childTabIndex := if isSelected then 0 else -1
      hasOnFocus := isSelected })

/-- A settled evaluation: run one pass; if it issued a state update, the
framework immediately re-renders with the new state and the outputs of the
re-render are the ones observed.  The update always writes `false`, whose
pass issues no further update, so one re-render settles. -/
def evaluate (isSelected isChildFocused : Bool) : Bool × RovingResult :=
  match useRovingTabIndex isSelected isChildFocused with
  | (none, out) => (isChildFocused, out)
  | (some s, _) => (s, (useRovingTabIndex isSelected s).snd)

/-- A descendant element of the cell container: an identity together with
the value of its explicit tabindex attribute, when it has one. -/
structure Elem where
  eid : Nat
  tabindex : Option Int
deriving DecidableEq, Repr

/-- The query for the first descendant whose tabindex attribute is
explicitly zero, in document order. -/
def querySelectorTabindex0 (descendants : List Elem) : Option Elem :=
  descendants.find? (fun e => e.tabindex == some 0)

/-- A programmatic focus call: the identity of the element receiving focus
and whether scroll-into-view is suppressed. -/
structure FocusCall where
  target : Nat
  preventScroll : Bool
deriving DecidableEq, Repr

/-- The focus-entry handler: query the descendants for the first element
with an explicit zero tabindex; when found, focus it with scroll-into-view
suppressed and set the child-focused state to `true`; otherwise do nothing.
Returns the focus call performed, if any, and the new state. -/
def onFocus (descendants : List Elem) (isChildFocused : Bool) :
    Option FocusCall × Bool :=
  match querySelectorTabindex0 descendants with
  | some e => (some { target := e.eid, preventScroll := true }, true)
  | none => (none, isChildFocused)

/-- One step of a run of the controller: either a settled evaluation with a
given `isSelected`, or a focus event dispatched on the cell container with
a given list of descendants. -/
inductive Step where
  | eval (isSelected : Bool)
  | focusEvent (descendants : List Elem)
deriving DecidableEq, Repr

/-- The state transition of one step. -/
def applyStep : Step → Bool → Bool
  | Step.eval sel, s => (evaluate sel s).fst
  | Step.focusEvent d, s => (onFocus d s).snd

/-- The sequence of `isChildFocused` states visited by a run, the initial
state included. -/
def runTrace (s0 : Bool) : List Step → List Bool
  | [] => [s0]
  | st :: rest => s0 :: runTrace (applyStep st s0) rest

/-- A focus event leaves the state `true` when it was `true`. -/
theorem onFocus_snd_of_true (d : List Elem) : (onFocus d true).snd = true := by
  unfold onFocus
  cases querySelectorTabindex0 d <;> rfl

/-- A focus event yields state `false` only from state `false`. -/
theorem onFocus_snd_false (d : List Elem) (s : Bool)
    (h : (onFocus d s).snd = false) : s = false := by
  cases s with
  | false => rfl
  | true => rw [onFocus_snd_of_true] at h; exact absurd h (by simp)

/-- The first state of any trace is the initial state. -/
theorem runTrace_head (s0 : Bool) (steps : List Step) :
    (runTrace s0 steps).get? 0 = some s0 := by
  cases steps <;> rfl

/-- `find?` returns the element at the least index satisfying the
predicate. -/
theorem find?_eq_some_of_first (p : Elem → Bool) :
    ∀ (d : List Elem) (i : Nat) (hi : i < d.length),
      p (d.get ⟨i, hi⟩) = true →
      (∀ (j : Nat) (hj : j < d.length), j < i → p (d.get ⟨j, hj⟩) = false) →
      d.find? p = some (d.get ⟨i, hi⟩)
  | [], i, hi, _, _ => absurd hi (by simp)
  | a :: t, 0, _, hp, _ => by
      simpa [List.find?_cons] using hp.symm ▸ (by simp [List.find?_cons, hp])
  | a :: t, i + 1, hi, hp, hmin => by
      have ha : p a = false := hmin 0 (by simp) (Nat.succ_pos i)
      have ht := find?_eq_some_of_first p t i (Nat.lt_of_succ_lt_succ hi) hp
        (fun j hj hji => hmin (j + 1) (Nat.succ_lt_succ hj) (Nat.succ_lt_succ hji))
      simpa [List.find?_cons, ha] using ht

/-- Claim C1: an evaluation entered with the child-focused state `true` and
`isSelected = false` settles in the state `false` and returns container tab
index `-1`, restoring the invariant that child focus implies selection. -/
theorem childFocused_implies_selected_invariant :
    (evaluate false true).fst = false ∧ (evaluate false true).snd.tabIndex = -1 := by
  decide

/-- Claim C2: the container tab index of a settled evaluation is `0` exactly
when the cell is selected and the settled child-focused state is `false`,
and is `-1` otherwise; in particular it is `0` for a selected cell with no
focused child. -/
theorem containerTabIndex_spec (sel s : Bool) :
    ((evaluate sel s).snd.tabIndex = 0 ↔
      sel = true ∧ (evaluate sel s).fst = false) ∧
    (¬(sel = true ∧ (evaluate sel s).fst = false) →
      (evaluate sel s).snd.tabIndex = -1) ∧
    (sel = true → s = false → (evaluate sel s).snd.tabIndex = 0) := by
  revert sel s; decide

/-- Witness for C2 at `sel = true`, `s = false` and, for the otherwise
branch, at `sel = false`, `s = false`. -/
theorem containerTabIndex_spec_witness :
    (((evaluate true false).snd.tabIndex = 0 ↔
      true = true ∧ (evaluate true false).fst = false) ∧
    (¬(true = true ∧ (evaluate true false).fst = false) →
      (evaluate true false).snd.tabIndex = -1) ∧
    (true = true → false = false → (evaluate true false).snd.tabIndex = 0)) ∧
    (evaluate false false).snd.tabIndex = -1 :=
  ⟨containerTabIndex_spec true false,
    (containerTabIndex_spec false false).2.1 (by decide)⟩

/-- Claim C3: the descendant tab index of an evaluation is `0` exactly when
the cell is selected, and is `-1` otherwise, whatever the child-focused
state. -/
theorem childTabIndex_spec (sel s : Bool) :
    ((evaluate sel s).snd.childTabIndex = 0 ↔ sel = true) ∧
    (sel = false → (evaluate sel s).snd.childTabIndex = -1) := by
  revert sel s; decide

/-- Witness for C3 at `sel = true`, `s = true` and, for the deselected
branch, at `sel = false`, `s = true`. -/
theorem childTabIndex_spec_witness :
    (((evaluate true true).snd.childTabIndex = 0 ↔ true = true) ∧
    (true = false → (evaluate true true).snd.childTabIndex = -1)) ∧
    (evaluate false true).snd.childTabIndex = -1 :=
  ⟨childTabIndex_spec true true,
    (childTabIndex_spec false true).2 rfl⟩

/-- Claim C4: a deselected evaluation returns both tab indexes `-1`, no
focus handler, and settles in the child-focused state `false`; the handler
is attached exactly when the cell is selected. -/
theorem deselected_evaluation_spec (s : Bool) :
    ((evaluate false s).snd.tabIndex = -1 ∧
      (evaluate false s).snd.childTabIndex = -1 ∧
      (evaluate false s).snd.hasOnFocus = false ∧
      (evaluate false s).fst = false) ∧
    ∀ (sel : Bool), (evaluate sel s).snd.hasOnFocus = sel := by
  revert s; decide

/-- Claim C5: on a focus event, when the descendants hold an element with an
explicit zero tabindex, the handler focuses the first such element with
scroll-into-view suppressed and sets the child-focused state to `true`;
when no descendant qualifies, the handler performs no focus call and leaves
the state unchanged. -/
theorem onFocus_spec (d : List Elem) (s : Bool) :
    (∀ (i : Nat) (hi : i < d.length),
      (d.get ⟨i, hi⟩).tabindex = some 0 →
      (∀ (j : Nat) (hj : j < d.length), j < i → (d.get ⟨j, hj⟩).tabindex ≠ some 0) →
      onFocus d s =
        (some { target := (d.get ⟨i, hi⟩).eid, preventScroll := true }, true)) ∧
    ((∀ e ∈ d, e.tabindex ≠ some 0) → onFocus d s = (none, s)) := by
  constructor
  · intro i hi hp hmin
    have hfind : d.find? (fun e => e.tabindex == some 0) = some (d.get ⟨i, hi⟩) := by
      apply find?_eq_some_of_first _ d i hi
      · simpa using hp
      · intro j hj hji
        simpa using hmin j hj hji
    simp [onFocus, querySelectorTabindex0, hfind]
  · intro hnone
    have hfind : d.find? (fun e => e.tabindex == some 0) = none := by
      rw [List.find?_eq_none]
      intro e he
      simpa using hnone e he
    simp [onFocus, querySelectorTabindex0, hfind]

/-- Witness for C5: a button with a zero tabindex is found and focused;
an empty cell gives a no-op. -/
theorem onFocus_spec_witness :
    onFocus [Elem.mk 5 (some 0)] false =
      (some { target := 5, preventScroll := true }, true) ∧
    onFocus ([] : List Elem) false = (none, false) :=
  ⟨(onFocus_spec [Elem.mk 5 (some 0)] false).1 0 (by decide) (by decide)
      (fun j hj hji => absurd hji (by omega)),
    (onFocus_spec ([] : List Elem) false).2 (by decide)⟩

/-- Claim C6: the deselection reset takes effect before the tab-index
outputs are derived, so a deselected evaluation returns the same outputs
whatever the entering child-focused state: exactly the outputs of an
evaluation entered with that state already `false`. -/
theorem deselection_reset_before_outputs (s : Bool) :
    (evaluate false s).snd = (evaluate false false).snd := by
  revert s; decide

/-- Claim C7: for a selected cell whose descendants are a button with a
zero tabindex and a plain span, a focus event focuses the button and sets
the child-focused state, so the next selected evaluation returns container
tab index `-1`. -/
theorem focus_button_scenario :
    onFocus [Elem.mk 1 (some 0), Elem.mk 2 none] false =
      (some { target := 1, preventScroll := true }, true) ∧
    (evaluate true (onFocus [Elem.mk 1 (some 0), Elem.mk 2 none] false).snd).snd.tabIndex
      = -1 := by
  decide

/-- Claim C8: evaluation is idempotent: re-evaluating with the same
`isSelected` from the settled state returns the same settled state and the
same outputs, so the settled state is a fixpoint. -/
theorem evaluate_idempotent (sel s : Bool) :
    evaluate sel (evaluate sel s).fst = evaluate sel s := by
  revert sel s; decide

/-- Claim C9: the focus handler never clears the child-focused state, a
focus event with no qualifying descendant leaves the state unchanged, and
along any run a transition of the state from `true` to `false` happens only
at an evaluation with `isSelected = false`. -/
theorem childFocused_cleared_only_by_deselection :
    (∀ (d : List Elem) (s : Bool), (onFocus d s).snd = false → s = false) ∧
    (∀ (d : List Elem) (s : Bool), (∀ e ∈ d, e.tabindex ≠ some 0) →
      (onFocus d s).snd = s) ∧
    (∀ (s0 : Bool) (steps : List Step) (i : Nat),
      (runTrace s0 steps).get? i = some true →
      (runTrace s0 steps).get? (i + 1) = some false →
      steps.get? i = some (Step.eval false)) := by
  refine ⟨onFocus_snd_false, ?_, ?_⟩
  · intro d s hnone
    have hfind : d.find? (fun e => e.tabindex == some 0) = none := by
      rw [List.find?_eq_none]
      intro e he
      simpa using hnone e he
    simp [onFocus, querySelectorTabindex0, hfind]
  · intro s0 steps
    induction steps generalizing s0 with
    | nil =>
      intro i h1 h2
      cases i <;> simp [runTrace] at h2
    | cons st rest ih =>
      intro i h1 h2
      cases i with
      | zero =>
        have hs0 : s0 = true := by
          have := runTrace_head s0 (st :: rest)
          rw [this] at h1
          exact Option.some_inj.mp h1
        have hs1 : applyStep st s0 = false := by
          have hhead := runTrace_head (applyStep st s0) rest
          have : (runTrace s0 (st :: rest)).get? 1 =
              (runTrace (applyStep st s0) rest).get? 0 := rfl
          rw [this, hhead] at h2
          exact Option.some_inj.mp h2
        subst hs0
        cases st with
        | eval sel =>
          cases sel with
          | false => rfl
          | true => exact absurd hs1 (by decide)
        | focusEvent d =>
          rw [show applyStep (Step.focusEvent d) true = (onFocus d true).snd from rfl,
            onFocus_snd_of_true] at hs1
          exact absurd hs1 (by simp)
      | succ k =>
        exact ih (applyStep st s0) k h1 h2

/-- Witness for C9: a focus event on an empty cell from state `false` stays
`false`; an empty descendant list changes nothing; and the one-step run
that deselects from state `true` drops the state at that very step. -/
theorem childFocused_cleared_only_by_deselection_witness :
    (false : Bool) = false ∧
    (onFocus ([] : List Elem) true).snd = true ∧
    [Step.eval false].get? 0 = some (Step.eval false) :=
  ⟨childFocused_cleared_only_by_deselection.1 [] false (by decide),
    childFocused_cleared_only_by_deselection.2.1 [] true (by decide),
    childFocused_cleared_only_by_deselection.2.2 true [Step.eval false] 0
      (by decide) (by decide)⟩

/-- Claim C10: the outputs of an evaluation are a deterministic function of
the pair of the selection input and the child-focused state: equal inputs
give equal outputs. -/
theorem outputs_deterministic (sel₁ sel₂ s₁ s₂ : Bool)
    (hsel : sel₁ = sel₂) (hs : s₁ = s₂) :
    (evaluate sel₁ s₁).snd = (evaluate sel₂ s₂).snd := by
  subst hsel; subst hs; rfl

/-- Witness for C10 at `sel = true`, `s = false` on both sides. -/
theorem outputs_deterministic_witness :
    (evaluate true false).snd = (evaluate true false).snd :=
  outputs_deterministic true true false false rfl rfl

end RovingTabIndex
